import Mathlib

/-!
Verification of the ThreadHeaven shopping-cart manager against its
specification.  The definitions below are a shallow embedding of the
`CartManager` class (src/unnamed/part_000): its in-memory item list, the
localStorage persistence of that list, and the checkout flows.  JavaScript
numbers that hold integral prices and quantities are modelled as `Int`;
the item array is a `List`; fallible statements return `Option`.
-/

namespace ThreadHeaven

/-- Product record as supplied by the catalog (see getStaticProducts):
fields id, name, material, price, image_url.  The display-only rotation
hint is omitted; ids are numeric in the built-in catalog. -/
structure Product where
  id : Nat
  name : String
  price : Int
  image_url : String
  material : String
deriving Repr, DecidableEq

/-- Cart line item, exactly the object literal pushed by addItem:
id, name, price, image_url, material, size (string or null), quantity. -/
structure LineItem where
  id : Nat
  name : String
  price : Int
  image_url : String
  material : String
  size : Option String
  quantity : Int
deriving Repr, DecidableEq

/-- State of one CartManager instance: `items` is this.items, `persisted`
is the decoded content of the threadheaven_cart storage key (none = key
absent), `writeCount` counts localStorage.setItem calls on that key, so
that a write is observable even when it stores an unchanged list. -/
structure CartState where
  items : List LineItem
  persisted : Option (List LineItem)
  writeCount : Nat
deriving Repr, DecidableEq

/-- Fresh state before any storage interaction: this.items = []. -/
def emptyCart : CartState :=
  { items := [], persisted := none, writeCount := 0 }

/-- saveToStorage: localStorage.setItem(key, JSON.stringify(this.items));
the UI badge refresh it also performs is display-only and not modelled. -/
def saveToStorage (s : CartState) : CartState :=
  { s with persisted := some s.items, writeCount := s.writeCount + 1 }

/-- The object literal pushed by addItem when no existing line matches. -/
def mkLineItem (p : Product) (quantity : Int) (size : Option String) : LineItem :=
  { id := p.id, name := p.name, price := p.price, image_url := p.image_url,
    material := p.material, size := size, quantity := quantity }

/-- Body of addItem on the item list: findIndex locates the first item
with item.id === product.id && item.size === size; if found its quantity
is incremented in place, otherwise a new item is pushed at the end.  The
recursion updates the first match and appends when there is none, which
is exactly that findIndex/set-else-push behaviour. -/
def addToItems (items : List LineItem) (p : Product) (quantity : Int)
    (size : Option String) : List LineItem :=
  match items with
  | [] => [mkLineItem p quantity size]
  | it :: rest =>
    if it.id = p.id ∧ it.size = size then
      { it with quantity := it.quantity + quantity } :: rest
    else
      it :: addToItems rest p quantity size

/-- addItem(product, quantity, size): merge into the list, then save.
The confirmation toast it also shows is display-only and not modelled. -/
def addItem (s : CartState) (p : Product) (quantity : Int)
    (size : Option String) : CartState :=
  saveToStorage { s with items := addToItems s.items p quantity size }

/-- Actual start position of Array.prototype.splice(index, 1): a negative
index is taken from the end and clamped below at 0, a non-negative index
is clamped above at the length.  (Int.toNat sends negatives to 0.) -/
def spliceStart (len : Nat) (index : Int) : Nat :=
  if index < 0 then ((len : Int) + index).toNat else min index.toNat len

/-- this.items.splice(index, 1): delete at most one element starting at
the computed position (when the position equals the length, the deletion
count min(1, len - start) is 0 and nothing is removed). -/
def spliceRemoveOne (items : List LineItem) (index : Int) : List LineItem :=
  items.take (spliceStart items.length index) ++
    items.drop (spliceStart items.length index + 1)

/-- removeItem(index): this.items.splice(index, 1); this.saveToStorage(). -/
def removeItem (s : CartState) (index : Int) : CartState :=
  saveToStorage { s with items := spliceRemoveOne s.items index }

/-- this.items[index].quantity = q at a position known to be in range. -/
def setQuantityAt : List LineItem → Nat → Int → List LineItem
  | [], _, _ => []
  | it :: rest, 0, q => { it with quantity := q } :: rest
  | it :: rest, Nat.succ n, q => it :: setQuantityAt rest n q

/-- updateQuantity(index, quantity): quantity ≤ 0 delegates to removeItem;
otherwise this.items[index].quantity = quantity then save.  When the index
is not a valid array position the property write throws a TypeError
(this.items[index] is undefined), modelled as none; no state changed. -/
def updateQuantity (s : CartState) (index : Int) (q : Int) : Option CartState :=
  if q ≤ 0 then
    some (removeItem s index)
  else if 0 ≤ index ∧ index.toNat < s.items.length then
    some (saveToStorage { s with items := setQuantityAt s.items index.toNat q })
  else
    none

/-- getTotal(): reduce((sum, item) => sum + item.price * item.quantity, 0). -/
def getTotal (items : List LineItem) : Int :=
  items.foldl (fun sum it => sum + it.price * it.quantity) 0

/-- getItemCount(): reduce((sum, item) => sum + item.quantity, 0). -/
def getItemCount (items : List LineItem) : Int :=
  items.foldl (fun sum it => sum + it.quantity) 0

/-- clear(): this.items = []; this.saveToStorage(). -/
def clear (s : CartState) : CartState :=
  saveToStorage { s with items := [] }

/-! Sample data used by witnesses and counterexamples. -/

/-- Concrete catalog entry (Boxy Tee from the built-in catalog). -/
def productA : Product :=
  { id := 4, name := "Boxy Tee", price := 55,
    image_url := "assets/pants/pants.png", material := "COTTON" }

/-- Concrete catalog entry (Tech Cargo from the built-in catalog). -/
def productB : Product :=
  { id := 2, name := "Tech Cargo", price := 120,
    image_url := "assets/pants/pants.png", material := "NYLON" }

/-- Line item for productA, quantity 2, no size chosen. -/
def itemA : LineItem := mkLineItem productA 2 none

/-- Line item for productB, quantity 1, size M. -/
def itemB : LineItem := mkLineItem productB 1 (some "M")

/-- A two-item cart already persisted once. -/
def cartAB : CartState :=
  { items := [itemA, itemB], persisted := some [itemA, itemB], writeCount := 1 }

/-! ## C1: addItem merges by the (productId, size) pair -/

/-- One addItem request: the product, the requested quantity, and the
chosen size (none when null). -/
structure AddCall where
  product : Product
  quantity : Int
  size : Option String
deriving Repr, DecidableEq

/-- A sequence of addItem calls applied in order. -/
def applyAdds (s : CartState) (calls : List AddCall) : CartState :=
  calls.foldl (fun st c => addItem st c.product c.quantity c.size) s

/-- The same sequence applied at the item-list level. -/
def applyAddsItems (items : List LineItem) (calls : List AddCall) :
    List LineItem :=
  calls.foldl (fun its c => addToItems its c.product c.quantity c.size) items

/-- Number of line items whose (id, size) equals the given key. -/
def keyCount : List LineItem → Nat → Option String → Nat
  | [], _, _ => 0
  | it :: rest, pid, sz =>
    (if it.id = pid ∧ it.size = sz then 1 else 0) + keyCount rest pid sz

/-- Sum of the quantities of the line items matching the key. -/
def keyQty : List LineItem → Nat → Option String → Int
  | [], _, _ => 0
  | it :: rest, pid, sz =>
    (if it.id = pid ∧ it.size = sz then it.quantity else 0) + keyQty rest pid sz

/-- Sum of the quantities requested by the calls targeting the key. -/
def requestedQty : List AddCall → Nat → Option String → Int
  | [], _, _ => 0
  | c :: rest, pid, sz =>
    (if c.product.id = pid ∧ c.size = sz then c.quantity else 0) +
      requestedQty rest pid sz

/-- Whether some call in the sequence targets the key. -/
def hasCall : List AddCall → Nat → Option String → Bool
  | [], _, _ => false
  | c :: rest, pid, sz =>
    decide (c.product.id = pid ∧ c.size = sz) || hasCall rest pid sz

lemma updQty_id (it : LineItem) (x : Int) :
    ({ it with quantity := x } : LineItem).id = it.id := rfl

lemma updQty_size (it : LineItem) (x : Int) :
    ({ it with quantity := x } : LineItem).size = it.size := rfl

lemma updQty_quantity (it : LineItem) (x : Int) :
    ({ it with quantity := x } : LineItem).quantity = x := rfl

lemma keyQty_addToItems (items : List LineItem) (p : Product) (q : Int)
    (sz : Option String) (pid : Nat) (sz' : Option String) :
    keyQty (addToItems items p q sz) pid sz' =
      keyQty items pid sz' + (if p.id = pid ∧ sz = sz' then q else 0) := by
  induction items with
  | nil =>
    simp only [addToItems, keyQty, mkLineItem, add_zero, zero_add]
  | cons it rest ih =>
    by_cases h : it.id = p.id ∧ it.size = sz
    · obtain ⟨h1, h2⟩ := h
      simp only [addToItems, if_pos (And.intro h1 h2), keyQty,
        updQty_id, updQty_size, updQty_quantity, h1, h2]
      by_cases h3 : p.id = pid ∧ sz = sz'
      · simp only [if_pos h3]; omega
      · simp only [if_neg h3]; omega
    · simp only [addToItems, if_neg h, keyQty, ih]
      omega

lemma keyCount_addToItems (items : List LineItem) (p : Product) (q : Int)
    (sz : Option String) (pid : Nat) (sz' : Option String) :
    keyCount (addToItems items p q sz) pid sz' =
      if p.id = pid ∧ sz = sz' then max 1 (keyCount items pid sz')
      else keyCount items pid sz' := by
  induction items with
  | nil =>
    simp only [addToItems, keyCount, mkLineItem, add_zero]
    split <;> omega
  | cons it rest ih =>
    by_cases h : it.id = p.id ∧ it.size = sz
    · obtain ⟨h1, h2⟩ := h
      simp only [addToItems, if_pos (And.intro h1 h2), keyCount,
        updQty_id, updQty_size, h1, h2]
      by_cases h3 : p.id = pid ∧ sz = sz'
      · simp only [if_pos h3]; omega
      · simp only [if_neg h3]
    · simp only [addToItems, if_neg h, keyCount, ih]
      by_cases h3 : p.id = pid ∧ sz = sz'
      · have h4 : ¬(it.id = pid ∧ it.size = sz') := by
          rintro ⟨ha, hb⟩
          exact h ⟨ha.trans h3.1.symm, hb.trans h3.2.symm⟩
        simp only [if_pos h3, if_neg h4]
        omega
      · simp only [if_neg h3]

lemma items_applyAdds (s : CartState) (calls : List AddCall) :
    (applyAdds s calls).items = applyAddsItems s.items calls := by
  induction calls generalizing s with
  | nil => rfl
  | cons c rest ih =>
    show (applyAdds (addItem s c.product c.quantity c.size) rest).items = _
    rw [ih]
    rfl

lemma keyQty_applyAddsItems (calls : List AddCall) (items : List LineItem)
    (pid : Nat) (sz : Option String) :
    keyQty (applyAddsItems items calls) pid sz =
      keyQty items pid sz + requestedQty calls pid sz := by
  induction calls generalizing items with
  | nil => simp [applyAddsItems, requestedQty]
  | cons c rest ih =>
    show keyQty (applyAddsItems (addToItems items c.product c.quantity c.size)
      rest) pid sz = _
    rw [ih, keyQty_addToItems]
    simp only [requestedQty]
    omega

lemma keyCount_applyAddsItems (calls : List AddCall) (items : List LineItem)
    (pid : Nat) (sz : Option String) :
    keyCount (applyAddsItems items calls) pid sz =
      if hasCall calls pid sz then max 1 (keyCount items pid sz)
      else keyCount items pid sz := by
  induction calls generalizing items with
  | nil => simp [applyAddsItems, hasCall]
  | cons c rest ih =>
    show keyCount (applyAddsItems (addToItems items c.product c.quantity
      c.size) rest) pid sz = _
    rw [ih, keyCount_addToItems]
    by_cases hc : c.product.id = pid ∧ c.size = sz
    · have hb : hasCall (c :: rest) pid sz = true := by
        simp [hasCall, hc]
      rw [hb, if_pos hc]
      simp only [if_true]
      split <;> omega
    · have hb : hasCall (c :: rest) pid sz = hasCall rest pid sz := by
        simp [hasCall, hc]
      rw [hb, if_neg hc]

/-- C1: starting from the empty cart, any sequence of addItem calls leaves
exactly one line item per (productId, size) key that was ever requested
(and none for keys never requested), and the quantity mass on each key
equals the sum of the quantities requested for that key; calls for the
same product with a different size land on a different key and hence on a
distinct line item. -/
theorem c1_addItem_merges_by_key (calls : List AddCall) (pid : Nat)
    (sz : Option String) :
    keyCount (applyAdds emptyCart calls).items pid sz =
      (if hasCall calls pid sz then 1 else 0) ∧
    keyQty (applyAdds emptyCart calls).items pid sz =
      requestedQty calls pid sz := by
  rw [items_applyAdds]
  constructor
  · rw [keyCount_applyAddsItems]
    show (if hasCall calls pid sz then max 1 (keyCount [] pid sz)
      else keyCount [] pid sz) = _
    simp only [keyCount]
    split <;> omega
  · rw [keyQty_applyAddsItems]
    show keyQty [] pid sz + requestedQty calls pid sz = _
    simp only [keyQty, zero_add]

/-! ## C2: every stored line item has quantity ≥ 1 -/

/-- Well-formedness invariant from the spec data model: every element of
the item list has quantity ≥ 1. -/
abbrev WF (items : List LineItem) : Prop := ∀ it ∈ items, 1 ≤ it.quantity

/-- One invocation of a public cart mutation, with its arguments. -/
inductive CartOp where
  | add (p : Product) (q : Int) (sz : Option String)
  | remove (index : Int)
  | update (index : Int) (q : Int)
  | clearAll
deriving Repr, DecidableEq

/-- Run one public mutation.  An updateQuantity whose property write
throws (invalid index, positive quantity) leaves the state unchanged:
the exception propagates before any mutation or save happens. -/
def applyOp (s : CartState) : CartOp → CartState
  | .add p q sz => addItem s p q sz
  | .remove i => removeItem s i
  | .update i q => (updateQuantity s i q).getD s
  | .clearAll => clear s

/-- Run a sequence of public mutations in order. -/
def applyOps (s : CartState) (ops : List CartOp) : CartState :=
  ops.foldl applyOp s

/-- An operation is well-formed when any addItem in it requests a
positive quantity, as the spec data model requires (the source's only
addItem call site always passes quantity 1). -/
def validOp : CartOp → Bool
  | .add _ q _ => decide (1 ≤ q)
  | _ => true

lemma WF_addToItems {items : List LineItem} {p : Product} {q : Int}
    {sz : Option String} (hw : WF items) (hq : 1 ≤ q) :
    WF (addToItems items p q sz) := by
  induction items with
  | nil =>
    intro it hit
    simp only [addToItems, List.mem_singleton] at hit
    subst hit
    exact hq
  | cons it rest ih =>
    have hhead : 1 ≤ it.quantity := hw it (List.mem_cons_self _ _)
    have htail : WF rest := fun x hx => hw x (List.mem_cons_of_mem _ hx)
    by_cases h : it.id = p.id ∧ it.size = sz
    · intro x hx
      simp only [addToItems, if_pos h] at hx
      rcases List.mem_cons.mp hx with rfl | hx
      · show 1 ≤ it.quantity + q
        omega
      · exact htail x hx
    · intro x hx
      simp only [addToItems, if_neg h] at hx
      rcases List.mem_cons.mp hx with rfl | hx
      · exact hhead
      · exact ih htail x hx

lemma WF_spliceRemoveOne {items : List LineItem} (hw : WF items)
    (index : Int) : WF (spliceRemoveOne items index) := by
  intro x hx
  unfold spliceRemoveOne at hx
  rcases List.mem_append.mp hx with hx | hx
  · exact hw x (List.take_subset _ _ hx)
  · exact hw x (List.drop_subset _ _ hx)

lemma WF_setQuantityAt {items : List LineItem} {q : Int} (hw : WF items)
    (hq : 1 ≤ q) (n : Nat) : WF (setQuantityAt items n q) := by
  induction items generalizing n with
  | nil => intro x hx; simp [setQuantityAt] at hx
  | cons it rest ih =>
    have hhead : 1 ≤ it.quantity := hw it (List.mem_cons_self _ _)
    have htail : WF rest := fun x hx => hw x (List.mem_cons_of_mem _ hx)
    cases n with
    | zero =>
      intro x hx
      rcases List.mem_cons.mp hx with rfl | hx
      · exact hq
      · exact htail x hx
    | succ m =>
      intro x hx
      rcases List.mem_cons.mp hx with rfl | hx
      · exact hhead
      · exact ih htail m x hx

lemma WF_applyOp {s : CartState} {op : CartOp} (hw : WF s.items)
    (hop : validOp op = true) : WF (applyOp s op).items := by
  cases op with
  | add p q sz =>
    have hq : 1 ≤ q := by
      simpa [validOp] using hop
    exact WF_addToItems hw hq
  | remove i => exact WF_spliceRemoveOne hw i
  | update i q =>
    show WF ((updateQuantity s i q).getD s).items
    unfold updateQuantity
    by_cases hq : q ≤ 0
    · simpa [hq] using WF_spliceRemoveOne hw i
    · by_cases hidx : 0 ≤ i ∧ i.toNat < s.items.length
      · simp only [if_neg hq, if_pos hidx, Option.getD_some]
        exact WF_setQuantityAt hw (by omega) i.toNat
      · simpa [hq, hidx] using hw
  | clearAll =>
    intro x hx
    simp [applyOp, clear, saveToStorage] at hx

/-- C2: from any well-formed state (in particular the empty cart), a
sequence of public mutations in which every addItem requests a positive
quantity only ever produces states whose line items all have quantity ≥ 1;
an updateQuantity that would drive a quantity to ≤ 0 removes the element
instead of storing a non-positive value. -/
theorem c2_quantity_invariant (ops : List CartOp) (s : CartState)
    (hs : WF s.items) (hops : ∀ op ∈ ops, validOp op = true) :
    WF (applyOps s ops).items := by
  induction ops generalizing s with
  | nil => exact hs
  | cons op rest ih =>
    show WF (applyOps (applyOp s op) rest).items
    exact ih (applyOp s op)
      (WF_applyOp hs (hops op (List.mem_cons_self _ _)))
      (fun o ho => hops o (List.mem_cons_of_mem _ ho))

/-- C2 witness: a concrete run mixing all four operations, including an
updateQuantity to 0, ends with every quantity ≥ 1. -/
theorem c2_witness :
    WF (applyOps emptyCart
      [CartOp.add productA 2 none, CartOp.add productB 1 (some "M"),
       CartOp.update 1 3, CartOp.update 0 0, CartOp.remove 5,
       CartOp.add productA 1 (some "L")]).items :=
  c2_quantity_invariant _ emptyCart (by decide) (by decide)

/-! ## C8: updateQuantity with non-positive quantity is removeItem -/

/-- C8: for every index (in particular every valid one) and every
newQuantity ≤ 0, updateQuantity(index, newQuantity) produces exactly the
state removeItem(index) produces — same items, same persisted blob, same
write count. -/
theorem c8_updateQuantity_nonpos_is_removeItem (s : CartState) (i q : Int)
    (hq : q ≤ 0) (_hi : 0 ≤ i) (_hlen : i.toNat < s.items.length) :
    updateQuantity s i q = some (removeItem s i) := by
  unfold updateQuantity
  simp [hq]

/-- C8 witness: on the concrete two-item cart, updateQuantity 0 0 and
removeItem 0 agree. -/
theorem c8_witness :
    updateQuantity cartAB 0 0 = some (removeItem cartAB 0) :=
  c8_updateQuantity_nonpos_is_removeItem cartAB 0 0 (by decide) (by decide)
    (by decide)

/-! ## C10: removeItem at out-of-range and negative indices -/

/-- C10 (amended): an index ≥ length leaves the items unchanged yet still
re-serializes the cart (a persisting no-op); a negative index deletes the
element at position length + index clamped below at 0 — counting from the
end while |index| ≤ length, but deleting the first element when
index < -length, because splice clamps the start position at 0. -/
theorem c10_removeItem_boundary (s : CartState) (i : Int) :
    ((s.items.length : Int) ≤ i →
      (removeItem s i).items = s.items ∧
      (removeItem s i).persisted = some s.items ∧
      (removeItem s i).writeCount = s.writeCount + 1) ∧
    (i < 0 →
      (removeItem s i).items =
        s.items.eraseIdx ((s.items.length : Int) + i).toNat) := by
  constructor
  · intro hge
    have h0 : 0 ≤ i := le_trans (Int.natCast_nonneg _) hge
    have hstart : spliceStart s.items.length i = s.items.length := by
      unfold spliceStart
      rw [if_neg (by omega)]
      have : s.items.length ≤ i.toNat := by omega
      omega
    have hitems : (removeItem s i).items = s.items := by
      show spliceRemoveOne s.items i = s.items
      unfold spliceRemoveOne
      rw [hstart, List.take_length, List.drop_eq_nil_of_le (by omega),
        List.append_nil]
    refine ⟨hitems, ?_, rfl⟩
    show some (spliceRemoveOne s.items i) = some s.items
    exact congrArg some hitems
  · intro hneg
    show spliceRemoveOne s.items i = _
    unfold spliceRemoveOne spliceStart
    rw [if_pos hneg, List.eraseIdx_eq_take_drop_succ]

/-- C10 witness: on the concrete two-item cart, removeItem 5 keeps both
items but still persists and counts a write. -/
theorem c10_witness :
    (removeItem cartAB 5).items = cartAB.items ∧
    (removeItem cartAB 5).persisted = some cartAB.items ∧
    (removeItem cartAB 5).writeCount = cartAB.writeCount + 1 :=
  (c10_removeItem_boundary cartAB 5).1 (by decide)

/-- C10 counterexample: removeItem (-5) on a two-element cart deletes the
FIRST element (splice clamps the start to 0).  It is neither a no-op nor
a deletion counted from the end (which would have removed the last
element), so the unqualified reading of the claim fails. -/
theorem c10_counterexample :
    (removeItem cartAB (-5)).items = [itemB] ∧
    (removeItem cartAB (-5)).items ≠ cartAB.items ∧
    (removeItem cartAB (-5)).items ≠ [itemA] := by
  refine ⟨rfl, by decide, by decide⟩

/-! ## C4: hydrating the cart from the persistent store -/

/-- A JSON value: the possible results of a successful JSON.parse. -/
inductive Json where
  | null
  | bool (b : Bool)
  | num (n : Int)
  | str (s : String)
  | arr (elems : List Json)
  | obj (fields : List (String × Json))

/-- First field with the given key, as JavaScript property lookup. -/
def lookupField : List (String × Json) → String → Option Json
  | [], _ => none
  | (k, v) :: rest, key => if k = key then some v else lookupField rest key

/-- A JSON string, when present. -/
def asStr : Option Json → Option String
  | some (Json.str s) => some s
  | _ => none

/-- A JSON number, when present (integral prices and quantities). -/
def asNum : Option Json → Option Int
  | some (Json.num n) => some n
  | _ => none

/-- The size field: null or a string label. -/
def asSize : Option Json → Option (Option String)
  | some Json.null => some none
  | some (Json.str s) => some (some s)
  | _ => none

/-- Modelled from the spec: §3 defines a valid LineItem as having a name,
a non-negative numeric unitPrice, a size that is a label or null, and a
positive integer quantity, with the field names used by the persisted
form.  This decoder expresses the claim's notion of content "whose
deserialization yields a valid sequence of LineItems"; no such decoder
exists in the source, which installs the parsed value unchecked. -/
def decodeLineItem (j : Json) : Option LineItem :=
  match j with
  | Json.obj fields =>
    match asNum (lookupField fields "id"), asStr (lookupField fields "name"),
        asNum (lookupField fields "price"),
        asStr (lookupField fields "image_url"),
        asStr (lookupField fields "material"),
        asSize (lookupField fields "size"),
        asNum (lookupField fields "quantity") with
    | some idN, some nameS, some priceN, some urlS, some matS, some sizeO,
        some qtyN =>
      if 0 ≤ idN ∧ 0 ≤ priceN ∧ 1 ≤ qtyN then
        some { id := idN.toNat, name := nameS, price := priceN,
               image_url := urlS, material := matS, size := sizeO,
               quantity := qtyN }
      else none
    | _, _, _, _, _, _, _ => none
  | _ => none

/-- Decode a persisted cart: a JSON array each of whose elements is a
valid LineItem. -/
def decodeLineItems (j : Json) : Option (List LineItem) :=
  match j with
  | Json.arr elems => elems.mapM decodeLineItem
  | _ => none

/-- loadFromStorage, as a function of the persisted cart key.  The
parameter distinguishes the three cases the code distinguishes: none =
key absent (this.items keeps the constructor's []); some none = a stored
string on which JSON.parse throws (the catch sets this.items = []);
some (some v) = a stored string parsing to the value v, which is assigned
to this.items verbatim, whatever v is.  The result is the value this.items
holds afterwards, an empty item list being the JSON array []. -/
def loadFromStorage (saved : Option (Option Json)) : Json :=
  match saved with
  | none => Json.arr []
  | some none => Json.arr []
  | some (some v) => v

/-- C4 (amended): loading never raises (the function is total); an absent
key and content on which the parser throws both yield the empty cart; but
content that parses to any JSON value at all is installed as the item
list verbatim, with no check that it is a valid sequence of LineItems. -/
theorem c4_load_behaviour :
    loadFromStorage none = Json.arr [] ∧
    loadFromStorage (some none) = Json.arr [] ∧
    ∀ v : Json, loadFromStorage (some (some v)) = v :=
  ⟨rfl, rfl, fun _ => rfl⟩

/-- C4 counterexample: the persisted string "42" parses successfully to
the JSON number 42, which is not a valid sequence of LineItems, yet
loadFromStorage installs it as this.items instead of yielding the empty
cart, so the claim fails on this content. -/
theorem c4_counterexample :
    decodeLineItems (loadFromStorage (some (some (Json.num 42)))) = none ∧
    loadFromStorage (some (some (Json.num 42))) ≠ Json.arr [] :=
  ⟨rfl, fun h => Json.noConfusion h⟩

/-! ## Checkout orchestrator -/

/-- Phases of the checkout flow (spec §4.2 state machine). -/
inductive Phase where
  | idle
  | summaryShown
  | formShown
  | submitting
  | success
deriving Repr, DecidableEq

/-- checkout(): `if (this.items.length === 0) return;` — on an empty cart
nothing happens and no modal opens; otherwise the cart modal closes and
showCheckoutModal opens the checkout modal, whose first section is the
order summary.  The result is the phase the orchestrator is in after the
call, starting from idle. -/
def checkout (s : CartState) : Phase :=
  if s.items.length = 0 then Phase.idle else Phase.summaryShown

/-- C9: invoking checkout leaves the orchestrator in idle exactly when
the cart has zero line items; in particular an empty cart never
transitions out of idle, shows no summary and no form, and no order
construction is reached (orders are only built by the submission
handlers, which live behind the modal this call never opens). -/
theorem c9_empty_cart_checkout_stays_idle (s : CartState) :
    checkout s = Phase.idle ↔ s.items = [] := by
  unfold checkout
  by_cases h : s.items.length = 0
  · simp [h, List.length_eq_zero.mp h]
  · simp only [if_neg h]
    constructor
    · intro hc; exact absurd hc (by simp)
    · intro hnil; exact absurd (by simp [hnil]) h

/-- Customer details read from the checkout form fields. -/
structure Customer where
  email : String
  name : String
  address : String
  city : String
  zip : String
  country : String
deriving Repr, DecidableEq

/-- Items and total as rendered into the static order-summary markup when
showCheckoutModal runs (checkout entry). -/
structure Snapshot where
  items : List LineItem
  total : Int
deriving Repr, DecidableEq

/-- The snapshot showCheckoutModal renders: this.items and getTotal() at
entry, baked into the overlay's innerHTML string, which later cart
mutations cannot change. -/
def checkoutEntrySnapshot (s : CartState) : Snapshot :=
  { items := s.items, total := getTotal s.items }

/-- The pending-order blob processPayPalCheckout writes to localStorage
before calling the sink: customer, this.items, this.getTotal(),
Date.now(). -/
structure PendingOrder where
  customer : Customer
  items : List LineItem
  total : Int
  timestamp : Nat
deriving Repr, DecidableEq

/-- The payload processPayPalCheckout hands to db.createOrder. -/
structure OrderPayload where
  order_id : String
  customer_email : String
  amount : Int
  status : String
  items : List LineItem
  shipping_address : String
deriving Repr, DecidableEq

/-- The order payload as built at submission time: order_id is the
generated id, amount is this.getTotal(), status is pending, items is
this.items — the live cart at the moment of submission — and the
shipping address concatenates the form fields. -/
def buildPayPalOrder (s : CartState) (c : Customer)
    (orderId : String) : OrderPayload :=
  { order_id := orderId, customer_email := c.email,
    amount := getTotal s.items, status := "pending", items := s.items,
    shipping_address :=
      c.address ++ ", " ++ c.city ++ ", " ++ c.zip ++ ", " ++ c.country }

/-- C3 (amended): the summary markup is a snapshot of the entry state,
but the Order submitted is built from the live cart at submission time,
not from that snapshot: whenever the live items at submission differ from
the snapshot items, the submitted payload disagrees with the snapshot. -/
theorem c3_submission_uses_live_cart (s0 s1 : CartState) (c : Customer)
    (oid : String) :
    (checkoutEntrySnapshot s0).items = s0.items ∧
    (buildPayPalOrder s1 c oid).items = s1.items ∧
    (buildPayPalOrder s1 c oid).amount = getTotal s1.items ∧
    (s1.items ≠ s0.items →
      (buildPayPalOrder s1 c oid).items ≠ (checkoutEntrySnapshot s0).items) := by
  refine ⟨rfl, rfl, rfl, ?_⟩
  intro hne h
  exact hne h

/-- Sample customer used by the checkout theorems. -/
def custA : Customer :=
  { email := "jo@example.com", name := "Jo", address := "1 High St",
    city := "York", zip := "YO1", country := "GB" }

/-- Entry state for the C3 scenario: one item in the cart. -/
def cartEntry : CartState := addItem emptyCart productA 2 none

/-- The same cart after a mutation performed while the checkout modal is
open: a second product added. -/
def cartMutated : CartState := addItem cartEntry productB 1 (some "M")

/-- C3 witness: in the concrete scenario the submitted payload's items
differ from the entry snapshot's items. -/
theorem c3_witness :
    (buildPayPalOrder cartMutated custA "ORD-1").items ≠
      (checkoutEntrySnapshot cartEntry).items :=
  (c3_submission_uses_live_cart cartEntry cartMutated custA "ORD-1").2.2.2
    (by decide)

/-- C3 counterexample: with one item at entry and a second item added
before submission, the Order constructed at submission carries the
mutated cart's two items and total 230, not the snapshot's single item
and total 110 — the claim that the Order contains the snapshot fails. -/
theorem c3_counterexample :
    (buildPayPalOrder cartMutated custA "ORD-1").items ≠
      (checkoutEntrySnapshot cartEntry).items ∧
    (buildPayPalOrder cartMutated custA "ORD-1").amount = 230 ∧
    (checkoutEntrySnapshot cartEntry).total = 110 := by
  refine ⟨by decide, by decide, by decide⟩

/-! ## Submission handlers -/

/-- How one submission run ends. -/
inductive SubmitOutcome where
  | validationFailed
  | errorRecovered
  | succeeded
deriving Repr, DecidableEq

/-- Observable result of one processPayPalCheckout run: the cart state
afterwards, the pending-order blob written to its own storage key (if
reached), the payload submitted to db.createOrder (if reached), the
outcome, and whether the form is editable again afterwards. -/
structure PayPalRun where
  cart : CartState
  pending : Option PendingOrder
  submitted : Option OrderPayload
  outcome : SubmitOutcome
  formEnabled : Bool
deriving Repr, DecidableEq

/-- processPayPalCheckout(overlay): reads the form into customer; when
the email is empty or lacks a '@' it alerts and returns (the submit
control was never disabled); otherwise it disables the control, writes
the pending-order blob, throws if the db handle is undefined, else
builds the order payload and awaits db.createOrder; any exception lands
in the catch, which re-enables the form and alerts; on success the cart
is cleared and the success screen shown.  dbAvailable models
`typeof db !== 'undefined'`, sinkOk whether db.createOrder resolves, and
orderId / now stand for the time-and-random generated id and Date.now(). -/
def processPayPalCheckout (s : CartState) (c : Customer)
    (dbAvailable sinkOk : Bool) (orderId : String) (now : Nat) : PayPalRun :=
  if c.email.isEmpty || !(c.email.data.contains '@') then
    { cart := s, pending := none, submitted := none,
      outcome := SubmitOutcome.validationFailed, formEnabled := true }
  else
    let pending : PendingOrder :=
      { customer := c, items := s.items, total := getTotal s.items,
        timestamp := now }
    if !dbAvailable then
      { cart := s, pending := some pending, submitted := none,
        outcome := SubmitOutcome.errorRecovered, formEnabled := true }
    else if !sinkOk then
      { cart := s, pending := some pending,
        submitted := some (buildPayPalOrder s c orderId),
        outcome := SubmitOutcome.errorRecovered, formEnabled := true }
    else
      { cart := clear s, pending := some pending,
        submitted := some (buildPayPalOrder s c orderId),
        outcome := SubmitOutcome.succeeded, formEnabled := false }

/-- The order record the simulated-payment variant builds. -/
structure SimOrder where
  status : String
  total_amount : Int
  customer_email : String
  customer_name : String
deriving Repr, DecidableEq

/-- One row of the separate items collection that variant submits. -/
structure SimOrderItem where
  product_id : Nat
  quantity : Int
  price : Int
  size : Option String
deriving Repr, DecidableEq

/-- Observable result of one processPayment run. -/
structure PaymentRun where
  cart : CartState
  orderConstructed : Option SimOrder
  orderItems : List SimOrderItem
  sinkAccepted : Bool
  outcome : SubmitOutcome
deriving Repr, DecidableEq

/-- processPayment(overlay), the simulated-payment variant: disables the
button, waits the artificial 2-3 s delay, reads email and name with no
validation at all, constructs the paid order and its item rows from the
live cart, tries db.createOrder and swallows any failure with only a
console warning, then unconditionally shows the success screen and
clears the cart.  sinkOk records whether db.createOrder resolved. -/
def processPayment (s : CartState) (email customerName : String)
    (sinkOk : Bool) : PaymentRun :=
  { cart := clear s,
    orderConstructed := some
      { status := "paid", total_amount := getTotal s.items,
        customer_email := email, customer_name := customerName },
    orderItems := s.items.map fun it =>
      { product_id := it.id, quantity := it.quantity, price := it.price,
        size := it.size },
    sinkAccepted := sinkOk,
    outcome := SubmitOutcome.succeeded }

/-! ## C5: failed submissions leave the cart untouched -/

/-- C5 (amended, PayPal variant): every processPayPalCheckout run either
succeeds and clears the cart, or does not succeed and leaves the cart —
in-memory items, persisted blob and write count — exactly as it was,
with the form editable again; the cart is cleared only by the success
path.  (The simulated-payment variant violates the original claim: see
the counterexample.) -/
theorem c5_paypal_failure_preserves_cart (s : CartState) (c : Customer)
    (db sink : Bool) (oid : String) (now : Nat) :
    ((processPayPalCheckout s c db sink oid now).outcome =
        SubmitOutcome.succeeded ∧
      (processPayPalCheckout s c db sink oid now).cart = clear s) ∨
    ((processPayPalCheckout s c db sink oid now).outcome ≠
        SubmitOutcome.succeeded ∧
      (processPayPalCheckout s c db sink oid now).cart = s ∧
      (processPayPalCheckout s c db sink oid now).formEnabled = true) := by
  unfold processPayPalCheckout
  by_cases h1 : (c.email.isEmpty || !(c.email.data.contains '@')) = true
  · rw [if_pos h1]
    right
    exact ⟨by simp, rfl, rfl⟩
  · rw [if_neg h1]
    cases db with
    | false => right; exact ⟨by simp, rfl, rfl⟩
    | true =>
      cases sink with
      | false => right; exact ⟨by simp, rfl, rfl⟩
      | true => left; exact ⟨rfl, rfl⟩

/-- C5 counterexample: in the simulated-payment variant a failing Remote
Order Sink (sinkOk = false) raises inside the try, the catch swallows it,
and the run still ends in success with the cart cleared and the empty
list persisted — the pre-submission items are gone, contradicting the
claim that any exception leaves the cart exactly as it was. -/
theorem c5_counterexample :
    (processPayment cartAB "jo@example.com" "Jo" false).cart.items = [] ∧
    (processPayment cartAB "jo@example.com" "Jo" false).cart.persisted =
      some [] ∧
    cartAB.items ≠ [] ∧
    (processPayment cartAB "jo@example.com" "Jo" false).outcome =
      SubmitOutcome.succeeded := by
  exact ⟨rfl, rfl, by decide, rfl⟩

/-! ## C7: email validation before submission -/

/-- Both checkout forms declare the email field as required with type
email and neither form sets novalidate, and in both variants the handler
runs only from the listener for the browser-dispatched submit event.
The browser therefore runs constraint validation before dispatching
submit: a value that is empty (required) or is not a valid email address
— which under the HTML definition must contain a '@' — blocks the
submission with a user-visible validation message, the handler never
runs and the form stays editable.  The full platform check is stricter
than the two conditions the claim names, so we model exactly the blocked
set the claim describes; every dispatched submission then has a
non-empty email containing '@'. -/
def emailFieldBlocks (email : String) : Bool :=
  email.isEmpty || !(email.data.contains '@')

/-- A submission attempt on the PayPal checkout form: blocked by
constraint validation (none — the handler never runs, nothing changes),
or dispatched to processPayPalCheckout. -/
def submitPayPalForm (s : CartState) (c : Customer)
    (dbAvailable sinkOk : Bool) (orderId : String) (now : Nat) :
    Option PayPalRun :=
  if emailFieldBlocks c.email then none
  else some (processPayPalCheckout s c dbAvailable sinkOk orderId now)

/-- A submission attempt on the simulated-payment form: blocked by
constraint validation, or dispatched to processPayment. -/
def submitPaymentForm (s : CartState) (email customerName : String)
    (sinkOk : Bool) : Option PaymentRun :=
  if emailFieldBlocks email then none
  else some (processPayment s email customerName sinkOk)

lemma email_checks_of_not_blocked {email : String}
    (h : emailFieldBlocks email ≠ true) :
    email.isEmpty = false ∧ email.data.contains '@' = true := by
  constructor
  · cases he : email.isEmpty with
    | false => rfl
    | true =>
      exact absurd (by unfold emailFieldBlocks; rw [he]; rfl) h
  · cases hc : email.data.contains '@' with
    | true => rfl
    | false =>
      exact absurd
        (by unfold emailFieldBlocks; rw [Bool.or_eq_true]; right; rw [hc]; rfl)
        h

/-- C7: on both checkout forms, a submission with an empty or '@'-less
email never reaches the handler — it stops at the browser's validation
message with no Order constructed and the form still editable (the
PayPal handler additionally re-checks the same two conditions itself) —
and every submission that does construct or submit an Order had a
non-empty email containing '@'. -/
theorem c7_email_validated_before_order (s : CartState) (c : Customer)
    (db sink ok : Bool) (oid : String) (now : Nat) (customerName : String) :
    (emailFieldBlocks c.email = true →
      submitPayPalForm s c db sink oid now = none ∧
      submitPaymentForm s c.email customerName ok = none) ∧
    (∀ r : PayPalRun, submitPayPalForm s c db sink oid now = some r →
      r.submitted.isSome = true →
      c.email.isEmpty = false ∧ c.email.data.contains '@' = true) ∧
    (∀ r : PaymentRun, submitPaymentForm s c.email customerName ok = some r →
      c.email.isEmpty = false ∧ c.email.data.contains '@' = true) := by
  by_cases h : emailFieldBlocks c.email = true
  · refine ⟨fun _ => ⟨?_, ?_⟩, ?_, ?_⟩
    · unfold submitPayPalForm; rw [if_pos h]
    · unfold submitPaymentForm; rw [if_pos h]
    · intro r hr
      unfold submitPayPalForm at hr
      rw [if_pos h] at hr
      exact Option.noConfusion hr
    · intro r hr
      unfold submitPaymentForm at hr
      rw [if_pos h] at hr
      exact Option.noConfusion hr
  · have hok := email_checks_of_not_blocked h
    exact ⟨fun hblk => absurd hblk h, fun _ _ _ => hok, fun _ _ => hok⟩

/-- C7 witness: a form submission with an email lacking '@' and one with
the empty email are both blocked before any handler runs, so no Order is
constructed for them. -/
theorem c7_witness :
    submitPayPalForm cartAB { custA with email := "not-an-email" }
      true true "ORD-1" 0 = none ∧
    submitPaymentForm cartAB "" "Jo" true = none :=
  ⟨((c7_email_validated_before_order cartAB
      { custA with email := "not-an-email" } true true true "ORD-1" 0
      "Jo").1 (by decide)).1,
   ((c7_email_validated_before_order cartAB { custA with email := "" }
      true true true "ORD-1" 0 "Jo").1 (by decide)).2⟩

/-! ## C6: a second submit while Submitting is a no-op -/

/-- Submission-relevant state of the open checkout form: current phase,
whether the submit control is disabled, and how many order payloads have
been constructed and handed to the sink so far. -/
structure SubmitMachine where
  phase : Phase
  submitDisabled : Bool
  ordersConstructed : Nat
deriving Repr, DecidableEq

/-- One submit of the checkout form.  While the submit control is
disabled the browser fires no submit for it, so the handler never runs
and nothing changes; otherwise the handler validates (an invalid email
alerts and leaves the form as it was), and on a valid email it disables
the control synchronously — before the first await — moves to
Submitting, and constructs and submits exactly one order payload.  The
event loop is single threaded, so a second submit issued before the
in-flight call completes observes the disabled control. -/
def submitEvent (m : SubmitMachine) (emailOk : Bool) : SubmitMachine :=
  if m.submitDisabled then m
  else
    match m.phase with
    | Phase.formShown =>
      if emailOk then
        { phase := Phase.submitting, submitDisabled := true,
          ordersConstructed := m.ordersConstructed + 1 }
      else m
    | _ => m

/-- Completion of the in-flight createOrder call: on success the success
screen replaces the form; on failure the catch re-enables the control
and returns to the editable form. -/
def completeEvent (m : SubmitMachine) (sinkOk : Bool) : SubmitMachine :=
  if m.phase = Phase.submitting then
    if sinkOk then { m with phase := Phase.success }
    else { phase := Phase.formShown, submitDisabled := false,
           ordersConstructed := m.ordersConstructed }
  else m

/-- C6: from the editable form, a first valid submit constructs exactly
one order and moves to Submitting with the control disabled, and a
second submit issued before completion is a no-op — the pair of rapid
submissions constructs exactly one order in total. -/
theorem c6_double_submit_constructs_one_order (m : SubmitMachine)
    (hp : m.phase = Phase.formShown) (hd : m.submitDisabled = false) :
    (submitEvent m true).ordersConstructed = m.ordersConstructed + 1 ∧
    (submitEvent m true).phase = Phase.submitting ∧
    (submitEvent m true).submitDisabled = true ∧
    submitEvent (submitEvent m true) true = submitEvent m true := by
  have h1 : submitEvent m true =
      { phase := Phase.submitting, submitDisabled := true,
        ordersConstructed := m.ordersConstructed + 1 } := by
    unfold submitEvent
    rw [hd, hp]
    rfl
  refine ⟨by rw [h1], by rw [h1], by rw [h1], ?_⟩
  rw [h1]
  rfl

/-- C6 witness: from a concrete editable form, two rapid submissions end
with exactly one constructed order. -/
theorem c6_witness :
    (submitEvent ⟨Phase.formShown, false, 0⟩ true).ordersConstructed = 0 + 1 ∧
    (submitEvent ⟨Phase.formShown, false, 0⟩ true).phase = Phase.submitting ∧
    (submitEvent ⟨Phase.formShown, false, 0⟩ true).submitDisabled = true ∧
    submitEvent (submitEvent ⟨Phase.formShown, false, 0⟩ true) true =
      submitEvent ⟨Phase.formShown, false, 0⟩ true :=
  c6_double_submit_constructs_one_order ⟨Phase.formShown, false, 0⟩ rfl rfl

end ThreadHeaven
